import Mathlib

/-!
Shallow embedding of src/api/index.py (a FastAPI document summary/chat service).

External collaborators (PyPDF2, python-docx, the OpenAI completion service, the
Supabase object store and row store, uuid4, datetime.utcnow) are modelled as
oracles in an environment record; the database rows, the object-store contents
and a log of every request made to the completion service live in an explicit
state record that each handler threads through.

Python exception semantics are modelled faithfully: each handler body sits in a
try block whose catch-all turns any exception into an HTTP 500 response.  In
particular the HTTPException with status 400 that chat and end_chat raise for
an unknown session id is itself an Exception, so it is caught by the catch-all
of that same handler and re-raised as a 500 whose detail is the string form of the
caught exception (starlette renders an HTTPException as "<code>: <detail>").
-/

/-- One chat message, a role/content pair as stored in the session row and as
sent to the completion service. -/
structure Message where
  role : String
  content : String
deriving DecidableEq

/-- One request made to the completion service: the full message list and the
max_tokens budget passed to chat.completions.create. -/
structure LLMCall where
  msgs : List Message
  max_tokens : Nat
deriving DecidableEq

/-- A chat_sessions row.  The insert in start_chat sets only id, file_path and
messages, so updated_at starts absent (none) and is first written by chat. -/
structure SessionRow where
  id : String
  file_path : String
  messages : List Message
  updated_at : Option String
deriving DecidableEq

/-- An HTTP response: status code plus a flat JSON object body. -/
structure HttpResponse where
  status : Nat
  body : List (String × String)
deriving DecidableEq

/-- Oracles for the external collaborators.  pdfExtract/docxExtract are the
PyPDF2 / python-docx pipelines (they may fail on corrupt bytes), llm is the
completion service, uuid is the stream of uuid4 draws, now is datetime.utcnow
per tick, and uploadFails / storeRemoveFails decide whether the object-store
upload / remove call raises. -/
structure Env where
  pdfExtract : List Nat → Except String String
  docxExtract : List Nat → Except String String
  llm : List Message → Except String String
  uuid : Nat → String
  now : Nat → String
  uploadFails : String → Bool
  storeRemoveFails : String → Bool

/-- The mutable world: chat_sessions rows, object-store blobs keyed by path,
counters for the uuid and clock oracles, and the log of completion-service
requests issued so far. -/
structure St where
  db : List SessionRow
  store : List (String × List Nat)
  uuidCtr : Nat
  tick : Nat
  llmCalls : List LLMCall

/-- supabase.table("chat_sessions").select("*").eq("id", sid) followed by
taking data[0]: the first row whose id matches. -/
def findSession (db : List SessionRow) (sid : String) : Option SessionRow :=
  db.find? (fun r => r.id == sid)

/-- supabase.storage.from_("documents").download(path): the blob stored at
path, or failure when no such object exists. -/
def lookupStore (store : List (String × List Nat)) (p : String) : Option (List Nat) :=
  (store.find? (fun e => e.1 == p)).map (fun e => e.2)

/-- Python str.lower(): lower-case the string character by character (a Python
str is a sequence of code points, as is the data list of a Lean String). -/
def pyLower (s : String) : String := String.mk (s.data.map Char.toLower)

/-- Python str.endswith(suffix): suffix match on the code-point sequence. -/
def pyEndsWith (s suffix : String) : Bool := suffix.data.isSuffixOf s.data

/-- Python text[:n]: the first n code points. -/
def pyTake (s : String) (n : Nat) : String := String.mk (s.data.take n)

/-- extract_text: dispatch on the lower-cased filename suffix; anything that is
neither .pdf nor .docx raises ValueError("Unsupported file type"). -/
def extract_text (env : Env) (contents : List Nat) (filename : String) : Except String String :=
  if pyEndsWith (pyLower filename) ".pdf" then env.pdfExtract contents
  else if pyEndsWith (pyLower filename) ".docx" then env.docxExtract contents
  else Except.error "Unsupported file type"

/-- The fixed system instruction of generate_summary. -/
def summary_system : Message :=
  ⟨"system", "You are a helpful assistant that summarizes text. Provide a concise summary of the main points."⟩

/-- generate_summary: builds the two-message request (fixed system instruction
plus the user text wrapped in the summarize prompt) with max_tokens 500, and
returns both the request and the answer of the completion service. -/
def generate_summary (env : Env) (text : String) : LLMCall × Except String String :=
  let call : LLMCall := ⟨[summary_system, ⟨"user", "Summarize the following text:\n\n" ++ text⟩], 500⟩
  (call, env.llm call.msgs)

/-- The fixed Q&A-persona system instruction of generate_chat_response. -/
def chat_system : Message :=
  ⟨"system", "You are a helpful assistant that can answer questions about the given document."⟩

/-- The system message carrying the document context in generate_chat_response. -/
def context_message (context : String) : Message :=
  ⟨"system", "Context:\n\n" ++ context⟩

/-- generate_chat_response: persona system message, then the context system
message, then the whole prior message list, max_tokens 500. -/
def generate_chat_response (env : Env) (context : String) (messages : List Message) :
    LLMCall × Except String String :=
  let call : LLMCall := ⟨[chat_system, context_message context] ++ messages, 500⟩
  (call, env.llm call.msgs)

/-- MAX_CHARS in summarize. -/
def MAX_CHARS : Nat := 12000

/-- The marker appended when summarize truncates. -/
def truncation_marker : String := "... (text truncated due to length)"

/-- POST /api/summarize: extract text, truncate at MAX_CHARS, summarize.  Any
exception becomes a 500 carrying the exception message.  A completion request
is logged whether or not the completion service then fails. -/
def summarize (env : Env) (st : St) (contents : List Nat) (filename : String) :
    HttpResponse × St :=
  match extract_text env contents filename with
  | Except.error e => (⟨500, [("detail", e)]⟩, st)
  | Except.ok t =>
    let text := if t.length > MAX_CHARS then pyTake t MAX_CHARS ++ truncation_marker else t
    let pair := generate_summary env text
    let st1 : St := { st with llmCalls := st.llmCalls ++ [pair.1] }
    match pair.2 with
    | Except.error e => (⟨500, [("detail", e)]⟩, st1)
    | Except.ok s => (⟨200, [("summary", s)]⟩, st1)

/-- POST /api/start_chat: build the storage path from a fresh uuid4 draw and
the original filename, upload the bytes, draw a second uuid4 for the session
id, insert the row with an empty message list, return the id.  An upload
failure is an exception, hence a 500 with nothing inserted. -/
def start_chat (env : Env) (st : St) (contents : List Nat) (filename : String) :
    HttpResponse × St :=
  let file_path := "documents/" ++ env.uuid st.uuidCtr ++ "_" ++ filename
  if env.uploadFails file_path then
    (⟨500, [("detail", "UploadFailed")]⟩, { st with uuidCtr := st.uuidCtr + 1 })
  else
    let session_id := env.uuid (st.uuidCtr + 1)
    (⟨200, [("session_id", session_id)]⟩,
     { st with
        store := st.store ++ [(file_path, contents)],
        db := st.db ++ [⟨session_id, file_path, [], none⟩],
        uuidCtr := st.uuidCtr + 2 })

/-- The response chat and end_chat actually produce for an unknown session id:
the handler raises HTTPException(400, "Invalid session ID") inside its own try
block, the catch-all except Exception catches it and re-raises it as a 500
whose detail is str(e), which starlette renders as "400: Invalid session ID". -/
def invalidSessionResponse : HttpResponse :=
  ⟨500, [("detail", "400: Invalid session ID")]⟩

/-- POST /api/chat/{session_id}: look the session up, download and re-extract
the document text (no truncation here), append the user message, send the
persona + context + history to the completion service, append the assistant
reply, write messages and updated_at back to every row matching the id. -/
def chat (env : Env) (st : St) (session_id : String) (message : String) :
    HttpResponse × St :=
  match findSession st.db session_id with
  | none => (invalidSessionResponse, st)
  | some session =>
    match lookupStore st.store session.file_path with
    | none => (⟨500, [("detail", "DownloadFailed")]⟩, st)
    | some file_data =>
      match extract_text env file_data session.file_path with
      | Except.error e => (⟨500, [("detail", e)]⟩, st)
      | Except.ok text =>
        let messages := session.messages ++ [⟨"user", message⟩]
        let pair := generate_chat_response env text messages
        let st1 : St := { st with llmCalls := st.llmCalls ++ [pair.1] }
        match pair.2 with
        | Except.error e => (⟨500, [("detail", e)]⟩, st1)
        | Except.ok response =>
          let messages2 := messages ++ [⟨"assistant", response⟩]
          (⟨200, [("response", response)]⟩,
           { st1 with
              db := st1.db.map (fun r =>
                if r.id == session_id then
                  { r with messages := messages2, updated_at := some (env.now st.tick) }
                else r),
              tick := st.tick + 1 })

/-- The fixed success body of end_chat. -/
def end_chat_success_message : String := "Chat session ended and file deleted successfully"

/-- DELETE /api/end_chat/{session_id}: look the session up (unknown id gives
the same wrapped 500 as chat), remove the stored file inside an inner try
whose except only logs, then delete every row matching the id and return the
fixed success message. -/
def end_chat (env : Env) (st : St) (session_id : String) : HttpResponse × St :=
  match findSession st.db session_id with
  | none => (invalidSessionResponse, st)
  | some session =>
    let st1 : St :=
      if env.storeRemoveFails session.file_path then st
      else { st with store := st.store.filter (fun e => e.1 != session.file_path) }
    let st2 : St := { st1 with db := st1.db.filter (fun r => r.id != session_id) }
    (⟨200, [("message", end_chat_success_message)]⟩, st2)

/-- Run chat sequentially once per message of the list, collecting the
responses in call order. -/
def chatRun (env : Env) (st : St) (sid : String) (ms : List String) :
    List HttpResponse × St :=
  match ms with
  | [] => ([], st)
  | m :: rest =>
    let p1 := chat env st sid m
    let p2 := chatRun env p1.2 sid rest
    (p1.1 :: p2.1, p2.2)

/-- user1, assistant1, user2, assistant2, ...: the history produced by pairing
each user message with its assistant reply in call order. -/
def interleaveUA (ms rs : List String) : List Message :=
  (ms.zip rs).flatMap (fun p => [⟨"user", p.1⟩, ⟨"assistant", p.2⟩])

/-- The message history of the first row matching sid, if any. -/
def rowMessages (st : St) (sid : String) : Option (List Message) :=
  (findSession st.db sid).map (fun r => r.messages)

/-- A concrete environment for witnesses: extraction and completion always
succeed, storage calls never fail. -/
def envT : Env :=
  ⟨fun _ => Except.ok "doc text", fun _ => Except.ok "", fun _ => Except.ok "reply",
   fun n => toString n, fun n => toString n, fun _ => false, fun _ => false⟩

/-- A concrete session row for witnesses. -/
def rowT : SessionRow := ⟨"s1", "documents/u_f.pdf", [], none⟩

/-- A concrete state for witnesses: one session whose document is stored. -/
def stT : St :=
  ⟨[rowT], [("documents/u_f.pdf", [1, 2, 3])], 0, 0, []⟩

/-- The empty world. -/
def stEmpty : St := ⟨[], [], 0, 0, []⟩

/-- envT with a failing object-store remove call. -/
def envFail : Env := { envT with storeRemoveFails := fun _ => true }

/-- A 12,001-character document text (one past the summarize cap). -/
def tLong : String := String.mk (List.replicate 12001 'a')

/-- envT whose PDF pipeline extracts the 12,001-character text. -/
def envLong : Env := { envT with pdfExtract := fun _ => Except.ok tLong }

/-- A 13,000-character document text, longer than the cap even after adding
the truncation marker (12,000 + 34 characters). -/
def tLong13 : String := String.mk (List.replicate 13000 'a')

/-- envT whose PDF pipeline extracts the 13,000-character text. -/
def envC2 : Env := { envT with pdfExtract := fun _ => Except.ok tLong13 }

/-! ## Helper lemmas -/

theorem tLong_length : tLong.length = 12001 := by
  have h : tLong.length = (List.replicate 12001 'a').length := rfl
  rw [h, List.length_replicate]

theorem tLong13_length : tLong13.length = 13000 := by
  have h : tLong13.length = (List.replicate 13000 'a').length := rfl
  rw [h, List.length_replicate]

/-- A filter that drops every row matching sid leaves no row for findSession. -/
theorem findSession_filter_self (db : List SessionRow) (sid : String) :
    findSession (db.filter (fun r => r.id != sid)) sid = none := by
  unfold findSession
  rw [List.find?_eq_none]
  intro r hr
  have hmem := List.mem_filter.mp hr
  simpa using hmem.2

/-- The in-place update of every row matching sid commutes with findSession. -/
theorem findSession_map_update (db : List SessionRow) (sid : String)
    (ms2 : List Message) (t : Option String) :
    findSession
        (db.map (fun r =>
          if r.id == sid then { r with messages := ms2, updated_at := t } else r)) sid =
      (findSession db sid).map (fun r => { r with messages := ms2, updated_at := t }) := by
  unfold findSession
  induction db with
  | nil => rfl
  | cons a l ih =>
    by_cases h : a.id = sid
    · simp [List.find?_cons, h]
    · simp only [beq_iff_eq] at ih
      simp [List.find?_cons, h, ih, -List.find?_map]

/-! ## Claims -/

/-- Claim C4: extract_text dispatches by case-insensitive filename suffix — a
filename whose lower-cased form ends in .pdf goes to the PDF pipeline, one
ending in .docx goes to the DOCX pipeline, and every other filename fails with
the unsupported-format error. -/
theorem extract_text_dispatch (env : Env) (c : List Nat) (filename : String) :
    (pyEndsWith (pyLower filename) ".pdf" = true →
      extract_text env c filename = env.pdfExtract c) ∧
    (pyEndsWith (pyLower filename) ".pdf" = false →
      pyEndsWith (pyLower filename) ".docx" = true →
      extract_text env c filename = env.docxExtract c) ∧
    (pyEndsWith (pyLower filename) ".pdf" = false →
      pyEndsWith (pyLower filename) ".docx" = false →
      extract_text env c filename = Except.error "Unsupported file type") := by
  refine ⟨fun h1 => ?_, fun h1 h2 => ?_, fun h1 h2 => ?_⟩ <;> simp [extract_text, h1]
  · simp [h2]
  · simp [h2]

/-- Witness for C4 at the three concrete filenames A.PDF, b.DocX, notes.txt. -/
theorem extract_text_dispatch_witness :
    extract_text envT [] "A.PDF" = envT.pdfExtract [] ∧
    extract_text envT [] "b.DocX" = envT.docxExtract [] ∧
    extract_text envT [] "notes.txt" = Except.error "Unsupported file type" :=
  ⟨(extract_text_dispatch envT [] "A.PDF").1 (by decide),
   (extract_text_dispatch envT [] "b.DocX").2.1 (by decide) (by decide),
   (extract_text_dispatch envT [] "notes.txt").2.2 (by decide) (by decide)⟩

/-- summarize always issues exactly one completion request, built from the
truncated-if-long extracted text, whatever the completion service answers. -/
theorem summarize_sends (env : Env) (st : St) (contents : List Nat) (filename t : String)
    (hx : extract_text env contents filename = Except.ok t) :
    (summarize env st contents filename).2.llmCalls =
      st.llmCalls ++
        [⟨[summary_system,
           ⟨"user", "Summarize the following text:\n\n" ++
             (if t.length > MAX_CHARS then pyTake t MAX_CHARS ++ truncation_marker else t)⟩],
          500⟩] := by
  cases hr : env.llm [summary_system,
      ⟨"user", "Summarize the following text:\n\n" ++
        (if t.length > MAX_CHARS then pyTake t MAX_CHARS ++ truncation_marker else t)⟩] <;>
    simp [summarize, hx, generate_summary, hr]

/-- Claim C3: an input text longer than 12,000 characters is cut to exactly its
first 12,000 characters plus the truncation marker before being sent to the
completion service; a text of at most 12,000 characters is sent unchanged. -/
theorem summarize_truncation (env : Env) (st : St) (contents : List Nat) (filename t : String)
    (hx : extract_text env contents filename = Except.ok t) :
    (t.length > MAX_CHARS →
      (summarize env st contents filename).2.llmCalls =
        st.llmCalls ++
          [⟨[summary_system,
             ⟨"user", "Summarize the following text:\n\n" ++
               (pyTake t MAX_CHARS ++ truncation_marker)⟩], 500⟩]) ∧
    (t.length ≤ MAX_CHARS →
      (summarize env st contents filename).2.llmCalls =
        st.llmCalls ++
          [⟨[summary_system, ⟨"user", "Summarize the following text:\n\n" ++ t⟩], 500⟩]) := by
  have h := summarize_sends env st contents filename t hx
  constructor
  · intro hlen
    rw [h, if_pos hlen]
  · intro hlen
    rw [h, if_neg (by omega)]

/-- Witness for C3: a 12,001-character extraction is sent truncated, and a
short one is sent unchanged. -/
theorem summarize_truncation_witness :
    (summarize envLong stEmpty [] "d.pdf").2.llmCalls =
      stEmpty.llmCalls ++
        [⟨[summary_system,
           ⟨"user", "Summarize the following text:\n\n" ++
             (pyTake tLong MAX_CHARS ++ truncation_marker)⟩], 500⟩] ∧
    (summarize envT stEmpty [] "d.pdf").2.llmCalls =
      stEmpty.llmCalls ++
        [⟨[summary_system, ⟨"user", "Summarize the following text:\n\n" ++ "doc text"⟩], 500⟩] :=
  ⟨(summarize_truncation envLong stEmpty [] "d.pdf" tLong rfl).1
      (by rw [tLong_length]; norm_num [MAX_CHARS]),
   (summarize_truncation envT stEmpty [] "d.pdf" "doc text" rfl).2 (by decide)⟩

/-- Claim C1 (code-bug evaluation): a chat request whose session id matches no
row does not return the 400 the handler tries to raise — the catch-all except
clause converts it into a 500 — and it neither crashes nor produces a chat
response, leaving the state untouched. -/
theorem chat_unknown_session_gives_500 :
    (chat envT stEmpty "missing" "hi").1 = invalidSessionResponse ∧
    invalidSessionResponse = ⟨500, [("detail", "400: Invalid session ID")]⟩ ∧
    (chat envT stEmpty "missing" "hi").2 = stEmpty :=
  ⟨rfl, rfl, rfl⟩

/-- Claim C10: end_chat on a valid session returns the one fixed success body,
and the response is identical under any two environments — in particular under
one whose object-store delete fails and one whose delete succeeds — so the
body does not reveal a partial failure. -/
theorem end_chat_fixed_success_message (env env2 : Env) (st : St) (sid : String)
    (s : SessionRow) (h : findSession st.db sid = some s) :
    (end_chat env st sid).1 = ⟨200, [("message", end_chat_success_message)]⟩ ∧
    (end_chat env st sid).1 = (end_chat env2 st sid).1 := by
  constructor <;> simp [end_chat, h]

/-- Witness for C10: the failing-delete and clean-delete runs answer alike. -/
theorem end_chat_fixed_success_message_witness :
    (end_chat envFail stT "s1").1 = ⟨200, [("message", end_chat_success_message)]⟩ ∧
    (end_chat envFail stT "s1").1 = (end_chat envT stT "s1").1 :=
  end_chat_fixed_success_message envFail envT stT "s1" rowT rfl

/-- Claim C7: when the object-store delete fails during end_chat on a valid
session, the failure is swallowed — the session row is still deleted, the
stored blobs are left as they were, and the handler still answers 200 with the
success message. -/
theorem end_chat_swallows_delete_failure (env : Env) (st : St) (sid : String)
    (s : SessionRow) (h : findSession st.db sid = some s)
    (hfail : env.storeRemoveFails s.file_path = true) :
    (end_chat env st sid).1 = ⟨200, [("message", end_chat_success_message)]⟩ ∧
    findSession (end_chat env st sid).2.db sid = none ∧
    (end_chat env st sid).2.store = st.store := by
  refine ⟨?_, ?_, ?_⟩ <;> simp [end_chat, h, hfail, findSession_filter_self]

/-- Witness for C7 on the concrete one-session state with a failing delete. -/
theorem end_chat_swallows_delete_failure_witness :
    (end_chat envFail stT "s1").1 = ⟨200, [("message", end_chat_success_message)]⟩ ∧
    findSession (end_chat envFail stT "s1").2.db "s1" = none ∧
    (end_chat envFail stT "s1").2.store = stT.store :=
  end_chat_swallows_delete_failure envFail stT "s1" rowT rfl rfl

/-- chat on a state whose lookup misses returns the wrapped invalid-session
error and leaves the state untouched. -/
theorem chat_not_found (env : Env) (st : St) (sid m : String)
    (h : findSession st.db sid = none) :
    chat env st sid m = (invalidSessionResponse, st) := by
  simp [chat, h]

/-- end_chat on a state whose lookup misses returns the wrapped invalid-session
error and leaves the state untouched. -/
theorem end_chat_not_found (env : Env) (st : St) (sid : String)
    (h : findSession st.db sid = none) :
    end_chat env st sid = (invalidSessionResponse, st) := by
  simp [end_chat, h]

/-- Claim C6: after end_chat on a valid session id the row is gone, so an
immediately following chat or end_chat on the same id hits the empty lookup
and returns the invalid-session error (as the code produces it, the 500 that
wraps the 400 detail), touching nothing. -/
theorem end_chat_invalidates_session (env : Env) (st : St) (sid m : String)
    (s : SessionRow) (h : findSession st.db sid = some s) :
    findSession (end_chat env st sid).2.db sid = none ∧
    (chat env (end_chat env st sid).2 sid m).1 = invalidSessionResponse ∧
    (end_chat env (end_chat env st sid).2 sid).1 = invalidSessionResponse := by
  have hnone : findSession (end_chat env st sid).2.db sid = none := by
    cases hf : env.storeRemoveFails s.file_path <;>
      simp [end_chat, h, hf, findSession_filter_self]
  exact ⟨hnone, by rw [chat_not_found env _ sid m hnone],
         by rw [end_chat_not_found env _ sid hnone]⟩

/-- Witness for C6 on the concrete one-session state. -/
theorem end_chat_invalidates_session_witness :
    findSession (end_chat envT stT "s1").2.db "s1" = none ∧
    (chat envT (end_chat envT stT "s1").2 "s1" "hi").1 = invalidSessionResponse ∧
    (end_chat envT (end_chat envT stT "s1").2 "s1").1 = invalidSessionResponse :=
  end_chat_invalidates_session envT stT "s1" "hi" rowT rfl

/-- Claim C8: a successful start_chat stores the upload under
documents/<uuid>_<original-filename>, inserts a row carrying the freshly drawn
session id, that path and an empty message history, and returns that id; when
the drawn id matched no pre-existing row, looking it up now finds exactly the
new row. -/
theorem start_chat_inserts_fresh_session (env : Env) (st : St) (contents : List Nat)
    (filename : String)
    (hup : env.uploadFails ("documents/" ++ env.uuid st.uuidCtr ++ "_" ++ filename) = false) :
    (start_chat env st contents filename).1 =
      ⟨200, [("session_id", env.uuid (st.uuidCtr + 1))]⟩ ∧
    (start_chat env st contents filename).2.store =
      st.store ++ [("documents/" ++ env.uuid st.uuidCtr ++ "_" ++ filename, contents)] ∧
    (start_chat env st contents filename).2.db =
      st.db ++ [⟨env.uuid (st.uuidCtr + 1),
                 "documents/" ++ env.uuid st.uuidCtr ++ "_" ++ filename, [], none⟩] ∧
    (findSession st.db (env.uuid (st.uuidCtr + 1)) = none →
      findSession (start_chat env st contents filename).2.db (env.uuid (st.uuidCtr + 1)) =
        some ⟨env.uuid (st.uuidCtr + 1),
              "documents/" ++ env.uuid st.uuidCtr ++ "_" ++ filename, [], none⟩) := by
  refine ⟨by simp [start_chat, hup], by simp [start_chat, hup], by simp [start_chat, hup], ?_⟩
  intro hnone
  have hdb : (start_chat env st contents filename).2.db =
      st.db ++ [⟨env.uuid (st.uuidCtr + 1),
                 "documents/" ++ env.uuid st.uuidCtr ++ "_" ++ filename, [], none⟩] := by
    simp [start_chat, hup]
  rw [hdb]
  unfold findSession at hnone ⊢
  rw [List.find?_append, hnone]
  simp [List.find?_cons]

/-- Witness for C8 starting from the empty world. -/
theorem start_chat_inserts_fresh_session_witness :
    (start_chat envT stEmpty [7] "a.pdf").1 =
      ⟨200, [("session_id", envT.uuid (stEmpty.uuidCtr + 1))]⟩ ∧
    (start_chat envT stEmpty [7] "a.pdf").2.store =
      stEmpty.store ++ [("documents/" ++ envT.uuid stEmpty.uuidCtr ++ "_" ++ "a.pdf", [7])] ∧
    (start_chat envT stEmpty [7] "a.pdf").2.db =
      stEmpty.db ++ [⟨envT.uuid (stEmpty.uuidCtr + 1),
                      "documents/" ++ envT.uuid stEmpty.uuidCtr ++ "_" ++ "a.pdf", [], none⟩] ∧
    (findSession stEmpty.db (envT.uuid (stEmpty.uuidCtr + 1)) = none →
      findSession (start_chat envT stEmpty [7] "a.pdf").2.db (envT.uuid (stEmpty.uuidCtr + 1)) =
        some ⟨envT.uuid (stEmpty.uuidCtr + 1),
              "documents/" ++ envT.uuid stEmpty.uuidCtr ++ "_" ++ "a.pdf", [], none⟩) :=
  start_chat_inserts_fresh_session envT stEmpty [7] "a.pdf" rfl

/-- Claim C9: chat never changes the id or file_path of any row — the row list after
a chat call agrees with the one before on (id, file_path) pointwise — and the
database is either untouched (any failure path) or is exactly the pointwise
update writing the new messages list and the updated_at timestamp into the
rows matching the session id. -/
theorem chat_updates_only_messages_and_timestamp (env : Env) (st : St) (sid m : String) :
    ((chat env st sid m).2.db).map (fun r => (r.id, r.file_path)) =
      st.db.map (fun r => (r.id, r.file_path)) ∧
    ((chat env st sid m).2.db = st.db ∨
      ∃ ms2 t, (chat env st sid m).2.db =
        st.db.map (fun r =>
          if r.id == sid then { r with messages := ms2, updated_at := some t } else r)) := by
  cases hf : findSession st.db sid with
  | none => exact ⟨by simp [chat, hf], Or.inl (by simp [chat, hf])⟩
  | some s =>
    cases hl : lookupStore st.store s.file_path with
    | none => exact ⟨by simp [chat, hf, hl], Or.inl (by simp [chat, hf, hl])⟩
    | some fd =>
      cases hx : extract_text env fd s.file_path with
      | error e => exact ⟨by simp [chat, hf, hl, hx], Or.inl (by simp [chat, hf, hl, hx])⟩
      | ok t =>
        cases hr : env.llm (chat_system :: context_message t ::
            (s.messages ++ [⟨"user", m⟩])) with
        | error e =>
            exact ⟨by simp [chat, hf, hl, hx, generate_chat_response, hr],
                   Or.inl (by simp [chat, hf, hl, hx, generate_chat_response, hr])⟩
        | ok resp =>
            refine ⟨?_, Or.inr ⟨(s.messages ++ [⟨"user", m⟩]) ++ [⟨"assistant", resp⟩],
                                env.now st.tick, ?_⟩⟩
            · simp [chat, hf, hl, hx, generate_chat_response, hr]
              intro a _
              by_cases hid : a.id = sid <;> simp [hid]
            · simp [chat, hf, hl, hx, generate_chat_response, hr]

/-- Claim C2 (amended): once a chat turn reaches the completion call, the
request it issues carries the persona message, then a context system message
holding the full extracted document text — no 12,000-character truncation is
applied anywhere on the chat path — then the stored history plus the new user
message. -/
theorem chat_sends_full_context (env : Env) (st : St) (sid m : String) (s : SessionRow)
    (fd : List Nat) (t : String)
    (hf : findSession st.db sid = some s)
    (hl : lookupStore st.store s.file_path = some fd)
    (hx : extract_text env fd s.file_path = Except.ok t) :
    (chat env st sid m).2.llmCalls =
      st.llmCalls ++
        [⟨chat_system :: context_message t :: (s.messages ++ [⟨"user", m⟩]), 500⟩] := by
  cases hr : env.llm (chat_system :: context_message t :: (s.messages ++ [⟨"user", m⟩])) <;>
    simp [chat, hf, hl, hx, generate_chat_response, hr]

/-- Witness for the amended C2 on the concrete one-session state. -/
theorem chat_sends_full_context_witness :
    (chat envT stT "s1" "hi").2.llmCalls =
      stT.llmCalls ++
        [⟨chat_system :: context_message "doc text" :: (rowT.messages ++ [⟨"user", "hi"⟩]),
          500⟩] :=
  chat_sends_full_context envT stT "s1" "hi" rowT [1, 2, 3] "doc text" rfl rfl rfl

/-- Counterexample to C2 as stated: with a 13,000-character document text the
chat turn sends the completion service a context system message holding all
13,000 characters — more than 12,000 even after allowing for the truncation
marker (12,000 + 34) — so the context is not truncated at the point the text
is extracted. -/
theorem chat_context_untruncated_cex :
    (chat envC2 stT "s1" "q").2.llmCalls =
      [⟨chat_system :: context_message tLong13 :: [⟨"user", "q"⟩], 500⟩] ∧
    tLong13.length = 13000 ∧
    MAX_CHARS + truncation_marker.length = 12034 := by
  refine ⟨?_, tLong13_length, rfl⟩
  have hp : pyEndsWith (pyLower "documents/u_f.pdf") ".pdf" = true := rfl
  simp [chat, generate_chat_response, envC2, envT, stT, rowT, lookupStore,
    findSession, List.find?_cons, extract_text, hp]

/-- Pairing n user messages with n replies yields 2n history entries. -/
theorem interleaveUA_length (ms rs : List String) (h : rs.length = ms.length) :
    (interleaveUA ms rs).length = 2 * ms.length := by
  induction ms generalizing rs with
  | nil => simp [interleaveUA]
  | cons m rest ih =>
    cases rs with
    | nil => simp at h
    | cons r rt =>
      have h' : rt.length = rest.length := by simpa using h
      have hrec := ih rt h'
      simp only [interleaveUA] at hrec ⊢
      simp [hrec]
      omega

/-- A chat call that answers 200 took the success path: its body is a single
response field, and the stored history of the session grew by exactly the user
message followed by that assistant reply. -/
theorem chat_step (env : Env) (st : St) (sid m : String)
    (h200 : (chat env st sid m).1.status = 200) :
    ∃ resp : String,
      (chat env st sid m).1 = ⟨200, [("response", resp)]⟩ ∧
      rowMessages (chat env st sid m).2 sid =
        (rowMessages st sid).map (fun l => l ++ [⟨"user", m⟩, ⟨"assistant", resp⟩]) := by
  cases hf : findSession st.db sid with
  | none => simp [chat, hf, invalidSessionResponse] at h200
  | some s =>
    cases hl : lookupStore st.store s.file_path with
    | none => simp [chat, hf, hl] at h200
    | some fd =>
      cases hx : extract_text env fd s.file_path with
      | error e => simp [chat, hf, hl, hx] at h200
      | ok t =>
        cases hr : env.llm (chat_system :: context_message t ::
            (s.messages ++ [⟨"user", m⟩])) with
        | error e => simp [chat, hf, hl, hx, generate_chat_response, hr] at h200
        | ok resp =>
          refine ⟨resp, by simp [chat, hf, hl, hx, generate_chat_response, hr], ?_⟩
          have hdb : (chat env st sid m).2.db =
              st.db.map (fun r =>
                if r.id == sid then
                  { r with
                      messages := (s.messages ++ [⟨"user", m⟩]) ++ [⟨"assistant", resp⟩],
                      updated_at := some (env.now st.tick) }
                else r) := by
            simp [chat, hf, hl, hx, generate_chat_response, hr]
          unfold rowMessages
          rw [hdb, findSession_map_update, hf]
          simp

/-- Claim C5: if each of the n sequential chat calls on a session answered
200, then there are n assistant replies such that the responses carry exactly
those replies, the history grew by the interleaving user1, assistant1, user2,
assistant2, ... in call order, and that interleaving has exactly 2n entries. -/
theorem chat_run_history (env : Env) (sid : String) (ms : List String) :
    ∀ (st : St) (l : List Message),
      ((chatRun env st sid ms).1).map (fun r => r.status) = List.replicate ms.length 200 →
      rowMessages st sid = some l →
      ∃ rs : List String, rs.length = ms.length ∧
        ((chatRun env st sid ms).1).map (fun r => r.body) =
          rs.map (fun resp => [("response", resp)]) ∧
        rowMessages (chatRun env st sid ms).2 sid = some (l ++ interleaveUA ms rs) ∧
        (interleaveUA ms rs).length = 2 * ms.length := by
  induction ms with
  | nil =>
    intro st l _ hrow
    exact ⟨[], rfl, rfl, by simpa [chatRun, interleaveUA] using hrow,
           by simp [interleaveUA]⟩
  | cons m rest ih =>
    intro st l hs hrow
    have hcr : chatRun env st sid (m :: rest) =
        ((chat env st sid m).1 :: (chatRun env (chat env st sid m).2 sid rest).1,
         (chatRun env (chat env st sid m).2 sid rest).2) := rfl
    rw [hcr] at hs
    simp only [List.map_cons, List.length_cons, List.replicate_succ,
      List.cons.injEq] at hs
    obtain ⟨h200, hrest⟩ := hs
    obtain ⟨resp, hresp, hmsgs⟩ := chat_step env st sid m h200
    have hrow1 : rowMessages (chat env st sid m).2 sid =
        some (l ++ [⟨"user", m⟩, ⟨"assistant", resp⟩]) := by
      rw [hmsgs, hrow]
      rfl
    obtain ⟨rs, hlen, hbody, hfinal, _⟩ :=
      ih (chat env st sid m).2 (l ++ [⟨"user", m⟩, ⟨"assistant", resp⟩]) hrest hrow1
    refine ⟨resp :: rs, by simp [hlen], ?_, ?_,
            interleaveUA_length (m :: rest) (resp :: rs) (by simp [hlen])⟩
    · rw [hcr]
      simp [hresp, hbody]
    · rw [hcr]
      simp only []
      rw [hfinal]
      simp [interleaveUA]

/-- Witness for C5: two successful turns on the fresh concrete session leave a
four-entry history user1, assistant1, user2, assistant2. -/
theorem chat_run_history_witness :
    ∃ rs : List String, rs.length = 2 ∧
      ((chatRun envT stT "s1" ["hello", "again"]).1).map (fun r => r.body) =
        rs.map (fun resp => [("response", resp)]) ∧
      rowMessages (chatRun envT stT "s1" ["hello", "again"]).2 "s1" =
        some ([] ++ interleaveUA ["hello", "again"] rs) ∧
      (interleaveUA ["hello", "again"] rs).length = 2 * 2 :=
  chat_run_history envT "s1" ["hello", "again"] stT [] rfl rfl
